import Mathlib

/-!
Formal model of the session lifecycle and finalize pipeline of the Discord
voice transcription bot (`index.js`): the per-speaker recorder (`UserState`),
the per-channel session (`ChannelState`) with its active and finished
recorder maps and its `isClosing` latch, the process-wide `CHANNELS`
directory entry for the session key, the event handlers (speaker join/leave,
`/stop` command, transport disconnect), and the finalize pipeline
(flush wait, tolerance delay, per-speaker transcription loop, transcript
assembly, summarization, delivery, cleanup).
-/

/-- A guild member as seen by the event handlers: `member.user.id`,
`member.displayName`, `member.user.bot`. -/
structure Member where
  userId : Nat
  displayName : String
  bot : Bool
  deriving DecidableEq

/-- Artifact file name from the `UserState` constructor:
`` `${channelState.channelID}-${member.user.id}-${Date.now()}.wav` ``. -/
def mkRecPath (channelID userId now : Nat) : String :=
  toString channelID ++ "-" ++ toString userId ++ "-" ++ toString now ++ ".wav"

/-- Per-speaker recorder (`UserState` in the source). The WAV writer, the
audio stream handle and the diagnostic counters (`totalBytes`, `chunkSizes`)
only feed logging and the artifact bytes; the model keeps the fields the
session bookkeeping and the finalize pipeline read: the owning member's
identity and display name, the artifact path, and the creation time
(`Date.now()` at construction, modelled by the session's logical clock). -/
structure UserState where
  userId : Nat
  displayName : String
  filePath : String
  createdAt : Nat
  deriving DecidableEq

/-- State of one `ChannelState` object, together with the process-wide
`CHANNELS` entry for its key (`inDirectory`), the logical clock standing for
`Date.now()`, and a ghost counter `finalizeStarts` recording how many times
the body of `close()` passed the `isClosing` latch (how many finalize runs
began on this object). -/
structure SessionSt where
  channelID : Nat
  states : List (Nat × UserState)
  finishedStates : List (Nat × UserState)
  isClosing : Bool
  inDirectory : Bool
  clock : Nat
  finalizeStarts : Nat
  deriving DecidableEq

/-- JS `Map.has`. The maps `states` and `finishedStates` are modelled as
insertion-ordered association lists, exactly the observable behaviour of a
JS `Map` (iteration in insertion order, `set` on an existing key replaces
the value in place). -/
def mapHas (m : List (Nat × UserState)) (k : Nat) : Bool :=
  m.any (fun p => p.1 == k)

/-- JS `Map.get`. -/
def mapGet? (m : List (Nat × UserState)) (k : Nat) : Option UserState :=
  (m.find? (fun p => p.1 == k)).map (fun p => p.2)

/-- JS `Map.set`: replace in place if the key is present (insertion order
kept), otherwise append at the end. -/
def mapSet (m : List (Nat × UserState)) (k : Nat) (v : UserState) :
    List (Nat × UserState) :=
  if mapHas m k then m.map (fun p => if p.1 == k then (k, v) else p)
  else m ++ [(k, v)]

/-- JS `Map.delete`. -/
def mapDelete (m : List (Nat × UserState)) (k : Nat) : List (Nat × UserState) :=
  m.filter (fun p => p.1 != k)

/-- Observable outcome of one call to `ChannelState.addUserRecording`.
The source produces only the first three: a duplicate start logs
"already being recorded" and returns, a successful start registers a new
`UserState`, and a `receiver.subscribe` throw is caught and logged.
`errorAlreadyCapturing` is the outcome the specification's
`startCapture` contract demands on a duplicate start; it exists in the type
so that the code's behaviour can be compared with the contract, and the code
never produces it. -/
inductive CaptureOutcome
  | noOpLogged
  | registered
  | subscribeErrorCaught
  | errorAlreadyCapturing
  deriving DecidableEq

/-- `ChannelState.addUserRecording(member)`. `subOk` is the outcome of the
external `receiver.subscribe` call (`false` = it throws; the `catch` block
logs and leaves the session unchanged). On success a fresh `UserState` is
created (its constructor reads `Date.now()`, modelled by `clock`) and
registered in the active map. -/
def addUserRecording (subOk : Bool) (m : Member) (st : SessionSt) :
    SessionSt × CaptureOutcome :=
  if mapHas st.states m.userId then (st, CaptureOutcome.noOpLogged)
  else if subOk then
    let u : UserState :=
      { userId := m.userId, displayName := m.displayName
        filePath := mkRecPath st.channelID m.userId st.clock
        createdAt := st.clock }
    ({ st with states := mapSet st.states m.userId u, clock := st.clock + 1 },
      CaptureOutcome.registered)
  else (st, CaptureOutcome.subscribeErrorCaught)

/-- Specification contract for `startCapture` (spec §4.2), stated for
comparison with `addUserRecording`: a duplicate start for a speaker with an
active Recorder "fails with `AlreadyCapturing`"; otherwise a new Recorder is
created and registered in the active set. -/
def startCaptureSpec (m : Member) (st : SessionSt) : SessionSt × CaptureOutcome :=
  if mapHas st.states m.userId then (st, CaptureOutcome.errorAlreadyCapturing)
  else
    let u : UserState :=
      { userId := m.userId, displayName := m.displayName
        filePath := mkRecPath st.channelID m.userId st.clock
        createdAt := st.clock }
    ({ st with states := mapSet st.states m.userId u, clock := st.clock + 1 },
      CaptureOutcome.registered)

/-- The merge executed at the top of the finalize body: every still-active
recorder is closed and moved into `finishedStates`
(`this.states.forEach((s, userId) => { ... this.finishedStates.set(userId, s); ... })`).
`forEach` visits a JS `Map` in insertion order, hence `foldl`. -/
def mergeActives (states finished : List (Nat × UserState)) :
    List (Nat × UserState) :=
  states.foldl (fun fin p => mapSet fin p.1 p.2) finished

/-- `ChannelState.close()`. If the `isClosing` latch is already set the call
returns at once. Otherwise it sets the latch (counted by the ghost field
`finalizeStarts`) and starts the async finalize body, whose synchronous
prefix — everything before the first `await` — closes each active recorder,
merges the active map into `finishedStates` and clears the active map.
The remainder of the finalize body is asynchronous; its completion is a
separate event (`Event.finalizeDone` below), whose `finally` block resets
`isClosing` to `false`. -/
def close (st : SessionSt) : SessionSt :=
  if st.isClosing then st
  else
    { st with
      isClosing := true
      finalizeStarts := st.finalizeStarts + 1
      finishedStates := mergeActives st.states st.finishedStates
      states := [] }

/-- `ChannelState.remove(user)`: if the user has an active recorder it is
closed and moved to `finishedStates` (keyed by the user id); then, whenever
the active map is empty, `close()` is called. The `CHANNELS` directory is
not touched on this path. -/
def removeUser (uid : Nat) (st : SessionSt) : SessionSt :=
  let st1 :=
    match mapGet? st.states uid with
    | some s =>
        { st with
          states := mapDelete st.states uid
          finishedStates := mapSet st.finishedStates uid s }
    | none => st
  if st1.states.isEmpty then close st1 else st1

/-- `ChannelState.forceClose()` (the `/stop` command path): every active
recorder is closed and moved to `finishedStates`, the active map is cleared,
then `close()` is called. -/
def forceClose (st : SessionSt) : SessionSt :=
  close { st with
    finishedStates := mergeActives st.states st.finishedStates
    states := [] }

/-- One asynchronous event delivered to the handlers that touch this session
object. `join`/`leave` are `voiceStateUpdate` events for this channel
(`subOk` is the outcome of the external `receiver.subscribe` call),
`stopCommand` is the `/stop` interaction, `disconnect` is
`VoiceConnectionStatus.Disconnected` on this session's connection, and
`finalizeDone` is the completion of a running finalize body (its `finally`
block, which resets the `isClosing` latch). -/
inductive Event
  | join (m : Member) (subOk : Bool)
  | leave (uid : Nat)
  | stopCommand
  | disconnect
  | finalizeDone
  deriving DecidableEq

/-- One scheduling turn of the handlers in the source, as they act on this
session object and its `CHANNELS` entry:

* `join`: the `voiceStateUpdate` handler calls `addUserRecording` only when
  `CHANNELS.get` returns this session and the member is not a bot;
* `leave`: the handler calls `state.remove(user)` only when `CHANNELS.get`
  returns this session; `remove` never deletes the directory entry;
* `stopCommand`: when `CHANNELS.get` returns this session the handler runs
  `state.forceClose()` and then `CHANNELS.delete` in the same turn;
  otherwise it only replies with an error;
* `disconnect`: the `Disconnected` handler runs `CHANNELS.delete(this.channelID)`
  and then `this.close()`; it is attached to the connection, not routed
  through the directory;
* `finalizeDone`: the `finally` block of the finalize body sets
  `this.isClosing = false` (the `catch` block also resets it on error). -/
def step (st : SessionSt) : Event → SessionSt
  | Event.join m subOk =>
      if st.inDirectory && !m.bot then (addUserRecording subOk m st).1 else st
  | Event.leave uid =>
      if st.inDirectory then removeUser uid st else st
  | Event.stopCommand =>
      if st.inDirectory then
        let st1 := forceClose st
        { st1 with inDirectory := false }
      else st
  | Event.disconnect =>
      close { st with inDirectory := false }
  | Event.finalizeDone =>
      { st with isClosing := false }

/-- Run a sequence of events from a state. -/
def runEvents (st : SessionSt) (evs : List Event) : SessionSt :=
  evs.foldl step st

/-- A freshly created session for channel 7, as built by the `/start`
handler: empty maps, latch clear, registered in `CHANNELS`. -/
def initSt : SessionSt :=
  { channelID := 7, states := [], finishedStates := [], isClosing := false
    inDirectory := true, clock := 0, finalizeStarts := 0 }

/-! ## The I/O order of the finalize body (flush wait, delay, artifact reads) -/

/-- One externally visible I/O action of the finalize body, at the
granularity claim C3 is about: awaiting one recorder's `finishPromise`,
the fixed `setTimeout(1000)` tolerance delay, and the first open of one
recorder's artifact file inside the transcription loop. -/
inductive FinalizeAction
  | awaitFinish (r : UserState)
  | toleranceDelay
  | readArtifact (r : UserState)
  deriving DecidableEq

/-- The promises collected into `toClose`: the finalize body pushes each
active recorder's `finishPromise` while merging it into `finishedStates`,
and then pushes the `finishPromise` of every entry of the merged
`finishedStates` (so the just-drained recorders appear twice — harmless for
`Promise.all`). -/
def finalizeAwaitPart (st : SessionSt) : List FinalizeAction :=
  st.states.map (fun p => FinalizeAction.awaitFinish p.2)
    ++ (mergeActives st.states st.finishedStates).map
        (fun p => FinalizeAction.awaitFinish p.2)

/-- The artifact opens of the transcription loop, one per entry of the
merged `finishedStates`, in map (= finished) order. -/
def finalizeReadPart (st : SessionSt) : List FinalizeAction :=
  (mergeActives st.states st.finishedStates).map
    (fun p => FinalizeAction.readArtifact p.2)

/-- The I/O action order of the finalize body as written in the source:
`await Promise.all(toClose)`, then
`await new Promise(resolve => setTimeout(resolve, 1000))`, then the
per-speaker transcription loop over `this.finishedStates`. -/
def finalizeIOOrder (st : SessionSt) : List FinalizeAction :=
  finalizeAwaitPart st ++ FinalizeAction.toleranceDelay :: finalizeReadPart st

/-! ## The transcription loop, transcript assembly, summarization, delivery -/

/-- Environment for one finalize run: the filesystem as the loop observes it
(`fs.existsSync` / `fs.statSync(...).size`, keyed by artifact path; `none`
means the file does not exist) and the transcription API
(`openai.audio.transcriptions.create`: `none` means the call throws,
`some t` means it returns with `tr?.text || '' = t`). -/
structure TranscribeEnv where
  fileSize : String → Option Nat
  transcribe : String → Option String

/-- Accumulated observable outputs of the transcription loop: `userTexts`
and `filesToDelete` as in the source, plus a ghost list `transcriberCalls`
recording, in order, the artifact paths actually passed to
`openai.audio.transcriptions.create`. -/
structure LoopResult where
  userTexts : List (String × String)
  filesToDelete : List String
  transcriberCalls : List String
  deriving DecidableEq

/-- One iteration of the transcription loop, from the source:
if the file does not exist, log and `continue`; if it is smaller than 1024
bytes, queue it for deletion and `continue` without calling the transcriber;
otherwise call the transcriber (the WAV-format/amplitude diagnostic block
between the size check and the call only reads the file and logs — it does
not change `userTexts` or `filesToDelete`); an exception is caught, logged,
and the file (which exists) is queued for deletion; on success, a non-empty
`tr.text` is appended to `userTexts` and the file is queued for deletion,
an empty text only queues the file for deletion. -/
def processOne (env : TranscribeEnv) (acc : LoopResult) (s : UserState) :
    LoopResult :=
  match env.fileSize s.filePath with
  | none => acc
  | some sz =>
    if sz < 1024 then
      { acc with filesToDelete := acc.filesToDelete ++ [s.filePath] }
    else
      match env.transcribe s.filePath with
      | none =>
          { acc with
            transcriberCalls := acc.transcriberCalls ++ [s.filePath]
            filesToDelete := acc.filesToDelete ++ [s.filePath] }
      | some text =>
          if text = "" then
            { acc with
              transcriberCalls := acc.transcriberCalls ++ [s.filePath]
              filesToDelete := acc.filesToDelete ++ [s.filePath] }
          else
            { acc with
              transcriberCalls := acc.transcriberCalls ++ [s.filePath]
              userTexts := acc.userTexts ++ [(s.displayName, text)]
              filesToDelete := acc.filesToDelete ++ [s.filePath] }

/-- The transcription loop `for (const [userId, s] of this.finishedStates)`,
over the recorders of the merged finished map in map order. -/
def transcriptionLoop (env : TranscribeEnv) (rs : List UserState) : LoopResult :=
  rs.foldl (processOne env) { userTexts := [], filesToDelete := [], transcriberCalls := [] }

/-- The lines one `userTexts` entry contributes to the transcript:
`if (!u.text) continue;` then `## name`, blank, text, blank. -/
def sectionBlock (u : String × String) : List String :=
  if u.2 = "" then [] else ["## " ++ u.1, "", u.2, ""]

/-- The section lines pushed by the transcript-assembly loop, in
`userTexts` order. -/
def sectionLines (uts : List (String × String)) : List String :=
  uts.flatMap sectionBlock

/-- The full `lines` array: the fixed header, a blank line, then the
speaker sections. -/
def transcriptLines (uts : List (String × String)) : List String :=
  "# Transcript: Voice Channel" :: "" :: sectionLines uts

/-- JS `Array.prototype.join('\n')`. -/
def joinLines : List String → String
  | [] => ""
  | [l] => l
  | l :: ls => l ++ "\n" ++ joinLines ls

/-- `const transcript = lines.join('\n')`. -/
def buildTranscript (uts : List (String × String)) : String :=
  joinLines (transcriptLines uts)

/-- Environment of `summarizeTranscript`: the `OPENAI_API_KEY` variable, the
prompt file that `loadPromptFile` reads (`none` = missing), and the chat
API call (`none` = the request throws, `some s` = it returns with
`res.choices...content || '' = s`). -/
structure SummarizerEnv where
  apiKey : Option String
  promptFileContent : Option String
  apiResponse : Option String

/-- How one call to `summarizeTranscript` ends: `exited` — `loadPromptFile`
could not read the prompt file and called `process.exit(1)`; `threw` — the
chat API call threw; `returned s` — the function returned the string `s`. -/
inductive SummarizeResult
  | exited
  | threw
  | returned (s : String)
  deriving DecidableEq

/-- `summarizeTranscript(transcript)` from the source: with no
`OPENAI_API_KEY` it returns the placeholder string at once (before touching
the prompt file); otherwise it calls `loadPromptFile` — which terminates the
process when the prompt file is missing — builds the request content from
the prompt and the transcript truncated to 120000 characters, and performs
the chat API call. -/
def summarizeTranscript (env : SummarizerEnv) (transcript : String) :
    SummarizeResult :=
  match env.apiKey with
  | none => SummarizeResult.returned "OPENAI_API_KEY not set — summary skipped."
  | some _ =>
    match env.promptFileContent with
    | none => SummarizeResult.exited
    | some _ =>
      let _request := transcript.take 120000
      match env.apiResponse with
      | none => SummarizeResult.threw
      | some s => SummarizeResult.returned s

/-- How the post-loop part of the finalize body ends. `completed` carries
whether a summary send was attempted (`summary && summary.length > 0`),
whether a transcript-file send was attempted
(`transcript && transcript.length > 0`; the webhook sends themselves are
wrapped in `try`/`catch`, so attempting is the observable), and the list of
files actually unlinked. `processExited` — `summarizeTranscript` terminated
the process, so no delivery, cleanup or webhook teardown ran. -/
inductive FinalizeOutcome
  | completed (summarySendAttempted : Bool) (fileSendAttempted : Bool)
      (deleted : List String)
  | processExited
  deriving DecidableEq

/-- The finalize body after the transcription loop, from the source: build
the transcript, call `summarizeTranscript` inside `try`/`catch` (a thrown
error leaves `summary = ''`), send the summary when non-empty, send the
transcript file when non-empty, and unlink the queued files unless
`KEEP_RECORDINGS` is truthy. -/
def finalizePost (senv : SummarizerEnv) (keepRecordings : Bool)
    (lr : LoopResult) : FinalizeOutcome :=
  let transcript := buildTranscript lr.userTexts
  match summarizeTranscript senv transcript with
  | SummarizeResult.exited => FinalizeOutcome.processExited
  | SummarizeResult.threw =>
      FinalizeOutcome.completed false (decide (transcript ≠ ""))
        (if keepRecordings then [] else lr.filesToDelete)
  | SummarizeResult.returned s =>
      FinalizeOutcome.completed (decide (s ≠ "")) (decide (transcript ≠ ""))
        (if keepRecordings then [] else lr.filesToDelete)

/-! ## Concrete instances used by counterexamples and witnesses -/

/-- A non-bot member with user id 1. -/
def mAlice : Member := { userId := 1, displayName := "Alice", bot := false }

/-- A non-bot member with user id 2. -/
def mBob : Member := { userId := 2, displayName := "Bob", bot := false }

/-- A session in which `mAlice` already has an active recorder. -/
def st9 : SessionSt := (addUserRecording true mAlice initSt).1

/-- Event trace: Alice joins, Bob joins, Alice leaves, Alice rejoins. -/
def c4trace : List Event :=
  [Event.join mAlice true, Event.join mBob true, Event.leave 1, Event.join mAlice true]

/-- Event trace with symbolic display names: speaker 1 joins, then speaker 2
joins, then speaker 2 leaves, then speaker 1 leaves (the last leave empties
the channel and triggers finalize). -/
def c8trace (na nb : String) : List Event :=
  [Event.join { userId := 1, displayName := na, bot := false } true,
   Event.join { userId := 2, displayName := nb, bot := false } true,
   Event.leave 2, Event.leave 1]

/-- A finished recorder for Alice. -/
def rC3 : UserState :=
  { userId := 1, displayName := "Alice", filePath := "7-1-0.wav", createdAt := 0 }

/-- A session at finalize entry holding the single finished recorder `rC3`. -/
def stC3 : SessionSt :=
  { channelID := 7, states := [], finishedStates := [(1, rC3)], isClosing := true
    inDirectory := false, clock := 1, finalizeStarts := 1 }

/-- Recorder whose artifact `a.wav` exists but whose transcription throws. -/
def rAW : UserState := { userId := 1, displayName := "Alice", filePath := "a.wav", createdAt := 0 }

/-- Recorder whose artifact `b.wav` transcribes to non-empty text. -/
def rBW : UserState := { userId := 2, displayName := "Bob", filePath := "b.wav", createdAt := 1 }

/-- Environment: both artifacts pass the size threshold, transcription throws
for `a.wav` and returns non-empty text for `b.wav`. -/
def tenvW : TranscribeEnv :=
  { fileSize := fun p => if p = "a.wav" then some 4096 else if p = "b.wav" then some 4096 else none
    transcribe := fun p => if p = "b.wav" then some "hello" else none }

/-- Summarizer environment with no credential configured. -/
def senvW : SummarizerEnv :=
  { apiKey := none, promptFileContent := none, apiResponse := none }

/-- Summarizer environment: credential and prompt file present, chat API
call throws. -/
def senv6 : SummarizerEnv :=
  { apiKey := some "k", promptFileContent := some "p", apiResponse := none }

/-- A loop result with one transcribed speaker. -/
def lr6 : LoopResult :=
  { userTexts := [("Ann", "hi")], filesToDelete := ["a.wav"], transcriberCalls := ["a.wav"] }

/-- Speaker X's recorder: a 50KB artifact that transcribes to text. -/
def rX7 : UserState := { userId := 1, displayName := "X", filePath := "x.wav", createdAt := 0 }

/-- Speaker Y's recorder: an artifact below the 1024-byte threshold. -/
def rY7 : UserState := { userId := 2, displayName := "Y", filePath := "y.wav", createdAt := 1 }

/-- Environment for the C7 scenario: `x.wav` is 51200 bytes and transcribes
to non-empty text, `y.wav` is 100 bytes. -/
def tenv7 : TranscribeEnv :=
  { fileSize := fun p => if p = "x.wav" then some 51200 else if p = "y.wav" then some 100 else none
    transcribe := fun p => if p = "x.wav" then some "talk" else none }

/-- Environment for the C8 scenario over the recorders created by
`c8trace`: both artifacts pass the threshold and transcribe to non-empty
text. -/
def tenv8 : TranscribeEnv :=
  { fileSize := fun p =>
      if p = "7-2-1.wav" then some 2048 else if p = "7-1-0.wav" then some 2048 else none
    transcribe := fun p =>
      if p = "7-2-1.wav" then some "tb" else if p = "7-1-0.wav" then some "ta" else none }

/-- Ghost invariant of the close latch: the number of finalize starts is 1
exactly while `isClosing` is set, 0 before the first start. It holds on all
runs that contain no finalize-completion event. -/
def latchInv (st : SessionSt) : Prop :=
  st.finalizeStarts = if st.isClosing then 1 else 0

/-- Keys of the active map and keys of the finished map are each free of
duplicates (each is a JS `Map`). -/
def keysNodup (st : SessionSt) : Prop :=
  (st.states.map Prod.fst).Nodup ∧ (st.finishedStates.map Prod.fst).Nodup

/-! ## Helper lemmas -/

theorem joinLines_cons_cons (a b : String) (ls : List String) :
    joinLines (a :: b :: ls) = a ++ "\n" ++ joinLines (b :: ls) := rfl

theorem buildTranscript_eq (uts : List (String × String)) :
    buildTranscript uts =
      "# Transcript: Voice Channel" ++ "\n" ++ joinLines ("" :: sectionLines uts) := rfl

theorem buildTranscript_ne_empty (uts : List (String × String)) :
    buildTranscript uts ≠ "" := by
  rw [buildTranscript_eq]
  intro h
  have h2 := congrArg String.data h
  simp [String.data_append] at h2

theorem finalizePost_completed (senv : SummarizerEnv) (keep : Bool) (lr : LoopResult)
    (hcfg : senv.apiKey.isSome = true → senv.promptFileContent.isSome = true) :
    ∃ sFlag d, finalizePost senv keep lr = FinalizeOutcome.completed sFlag true d := by
  unfold finalizePost
  cases hk : senv.apiKey with
  | none =>
      simp [summarizeTranscript, hk, decide_eq_true (buildTranscript_ne_empty lr.userTexts)]
  | some k =>
      have hps := hcfg (by simp [hk])
      cases hp : senv.promptFileContent with
      | none => rw [hp] at hps; simp at hps
      | some p =>
          cases hr : senv.apiResponse with
          | none =>
              simp [summarizeTranscript, hk, hp, hr,
                decide_eq_true (buildTranscript_ne_empty lr.userTexts)]
          | some s =>
              simp [summarizeTranscript, hk, hp, hr,
                decide_eq_true (buildTranscript_ne_empty lr.userTexts)]
              exact Decidable.em (s = "")

theorem close_isClosing (st : SessionSt) : (close st).isClosing = true := by
  unfold close
  split
  · assumption
  · rfl

theorem close_inDirectory (st : SessionSt) : (close st).inDirectory = st.inDirectory := by
  unfold close
  split <;> rfl

theorem latchInv_close {st : SessionSt} (h : latchInv st) : latchInv (close st) := by
  unfold latchInv close at *
  by_cases hc : st.isClosing = true <;> simp [hc] at h ⊢ <;> omega

theorem addUser_ghost (subOk : Bool) (m : Member) (st : SessionSt) :
    ((addUserRecording subOk m st).1).isClosing = st.isClosing ∧
    ((addUserRecording subOk m st).1).finalizeStarts = st.finalizeStarts ∧
    ((addUserRecording subOk m st).1).inDirectory = st.inDirectory := by
  unfold addUserRecording
  split
  · exact ⟨rfl, rfl, rfl⟩
  · split <;> exact ⟨rfl, rfl, rfl⟩

theorem removeUser_inDirectory (uid : Nat) (st : SessionSt) :
    (removeUser uid st).inDirectory = st.inDirectory := by
  unfold removeUser
  cases mapGet? st.states uid <;> dsimp only <;> split <;> simp [close_inDirectory]

theorem removeUser_closing_true {st : SessionSt} (uid : Nat) (h : st.isClosing = true) :
    (removeUser uid st).isClosing = true := by
  unfold removeUser
  cases mapGet? st.states uid <;> dsimp only <;> split
  all_goals first | exact close_isClosing _ | exact h

theorem latchInv_removeUser {st : SessionSt} (uid : Nat) (h : latchInv st) :
    latchInv (removeUser uid st) := by
  unfold removeUser
  cases mapGet? st.states uid <;> dsimp only <;> split
  all_goals first | exact latchInv_close h | exact h

theorem latchInv_forceClose {st : SessionSt} (h : latchInv st) : latchInv (forceClose st) :=
  latchInv_close h

theorem latchInv_step {st : SessionSt} (e : Event) (he : e ≠ Event.finalizeDone)
    (h : latchInv st) : latchInv (step st e) := by
  cases e with
  | join m subOk =>
      simp only [step]
      split
      · have hf := addUser_ghost subOk m st
        unfold latchInv at *
        rw [hf.2.1, hf.1]
        exact h
      · exact h
  | leave uid =>
      simp only [step]
      split
      · exact latchInv_removeUser uid h
      · exact h
  | stopCommand =>
      simp only [step]
      split
      · exact latchInv_forceClose h
      · exact h
  | disconnect =>
      simp only [step]
      exact latchInv_close h
  | finalizeDone => exact absurd rfl he

theorem step_closing_mono {st : SessionSt} (e : Event) (he : e ≠ Event.finalizeDone)
    (h : st.isClosing = true) : (step st e).isClosing = true := by
  cases e with
  | join m subOk =>
      simp only [step]
      split
      · rw [(addUser_ghost subOk m st).1]; exact h
      · exact h
  | leave uid =>
      simp only [step]
      split
      · exact removeUser_closing_true uid h
      · exact h
  | stopCommand =>
      simp only [step]
      split
      · exact close_isClosing _
      · exact h
  | disconnect =>
      simp only [step]
      exact close_isClosing _
  | finalizeDone => exact absurd rfl he

theorem runEvents_latchInv : ∀ (evs : List Event) (st : SessionSt),
    Event.finalizeDone ∉ evs → latchInv st → latchInv (runEvents st evs)
  | [], _, _, h => h
  | e :: evs, st, hev, h => by
      have he : e ≠ Event.finalizeDone := fun hh => hev (hh ▸ List.mem_cons_self e evs)
      have hev' : Event.finalizeDone ∉ evs := fun hh => hev (List.mem_cons_of_mem e hh)
      exact runEvents_latchInv evs (step st e) hev' (latchInv_step e he h)

theorem runEvents_closing_mono : ∀ (evs : List Event) (st : SessionSt),
    Event.finalizeDone ∉ evs → st.isClosing = true → (runEvents st evs).isClosing = true
  | [], _, _, h => h
  | e :: evs, st, hev, h => by
      have he : e ≠ Event.finalizeDone := fun hh => hev (hh ▸ List.mem_cons_self e evs)
      have hev' : Event.finalizeDone ∉ evs := fun hh => hev (List.mem_cons_of_mem e hh)
      exact runEvents_closing_mono evs (step st e) hev' (step_closing_mono e he h)

theorem runEvents_disconnect_closing : ∀ (evs : List Event) (st : SessionSt),
    Event.finalizeDone ∉ evs → Event.disconnect ∈ evs →
    (runEvents st evs).isClosing = true
  | [], _, _, hd => absurd hd (List.not_mem_nil _)
  | e :: evs, st, hev, hd => by
      have hev' : Event.finalizeDone ∉ evs := fun hh => hev (List.mem_cons_of_mem e hh)
      rcases List.mem_cons.1 hd with hdd | hd'
      · subst hdd
        exact runEvents_closing_mono evs _ hev' (close_isClosing _)
      · exact runEvents_disconnect_closing evs (step st e) hev' hd'

theorem mapSet_keys (m : List (Nat × UserState)) (k : Nat) (v : UserState) :
    (mapSet m k v).map Prod.fst =
      if mapHas m k then m.map Prod.fst else m.map Prod.fst ++ [k] := by
  unfold mapSet
  split
  · rw [List.map_map]
    apply List.map_congr_left
    intro p _
    by_cases hp : p.1 = k <;> simp [Function.comp_apply, beq_iff_eq, hp]
  · simp

theorem mapSet_keys_nodup {m : List (Nat × UserState)} (k : Nat) (v : UserState)
    (h : (m.map Prod.fst).Nodup) : ((mapSet m k v).map Prod.fst).Nodup := by
  rw [mapSet_keys]
  split
  · exact h
  · next hk =>
      have hnot : k ∉ m.map Prod.fst := by
        intro hmem
        rcases List.mem_map.1 hmem with ⟨p, hp, hfst⟩
        unfold mapHas at hk
        exact hk (List.any_eq_true.2 ⟨p, hp, by simp [hfst]⟩)
      simp [List.nodup_append, h, hnot]

theorem mapDelete_keys_nodup {m : List (Nat × UserState)} (k : Nat)
    (h : (m.map Prod.fst).Nodup) : ((mapDelete m k).map Prod.fst).Nodup :=
  h.sublist (List.Sublist.map Prod.fst (List.filter_sublist m))

theorem mergeActives_keys_nodup : ∀ (sts fin : List (Nat × UserState)),
    (fin.map Prod.fst).Nodup → ((mergeActives sts fin).map Prod.fst).Nodup
  | [], _, h => h
  | p :: sts, fin, h => mergeActives_keys_nodup sts _ (mapSet_keys_nodup p.1 p.2 h)

theorem keysNodup_close {st : SessionSt} (h : keysNodup st) : keysNodup (close st) := by
  unfold close
  split
  · exact h
  · exact ⟨by simp, mergeActives_keys_nodup st.states st.finishedStates h.2⟩

theorem keysNodup_removeUser {st : SessionSt} (uid : Nat) (h : keysNodup st) :
    keysNodup (removeUser uid st) := by
  unfold removeUser
  cases mapGet? st.states uid with
  | none =>
      dsimp only
      split
      · exact keysNodup_close h
      · exact h
  | some s =>
      dsimp only
      split
      · exact keysNodup_close ⟨mapDelete_keys_nodup uid h.1, mapSet_keys_nodup uid s h.2⟩
      · exact ⟨mapDelete_keys_nodup uid h.1, mapSet_keys_nodup uid s h.2⟩

theorem keysNodup_addUser {st : SessionSt} (subOk : Bool) (m : Member)
    (h : keysNodup st) : keysNodup ((addUserRecording subOk m st).1) := by
  unfold addUserRecording
  split
  · exact h
  · split
    · exact ⟨mapSet_keys_nodup _ _ h.1, h.2⟩
    · exact h

theorem keysNodup_forceClose {st : SessionSt} (h : keysNodup st) :
    keysNodup (forceClose st) :=
  keysNodup_close ⟨by simp, mergeActives_keys_nodup _ _ h.2⟩

theorem keysNodup_step {st : SessionSt} (e : Event) (h : keysNodup st) :
    keysNodup (step st e) := by
  cases e with
  | join m subOk =>
      simp only [step]
      split
      · exact keysNodup_addUser subOk m h
      · exact h
  | leave uid =>
      simp only [step]
      split
      · exact keysNodup_removeUser uid h
      · exact h
  | stopCommand =>
      simp only [step]
      split
      · exact keysNodup_forceClose h
      · exact h
  | disconnect =>
      simp only [step]
      exact keysNodup_close h
  | finalizeDone => exact h

theorem keysNodup_runEvents : ∀ (evs : List Event) (st : SessionSt),
    keysNodup st → keysNodup (runEvents st evs)
  | [], _, h => h
  | e :: evs, st, h => keysNodup_runEvents evs (step st e) (keysNodup_step e h)

theorem runEvents_c8trace_finished (na nb : String) :
    (runEvents initSt (c8trace na nb)).finishedStates =
      [(2, { userId := 2, displayName := nb, filePath := mkRecPath 7 2 1, createdAt := 1 }),
       (1, { userId := 1, displayName := na, filePath := mkRecPath 7 1 0, createdAt := 0 })] := rfl

/-! ## Claims -/

/-- C1, counterexample: because the `finally` block of the finalize body
resets `isClosing` to `false` and the session has no terminal `Closed`
state, a transport-disconnect trigger arriving after a completed finalize
starts a second finalize on the same `ChannelState` object, refuting
"the finalize sequence executes at most once on that Session object". -/
theorem c1_latch_reset_counterexample :
    (runEvents initSt
        [Event.disconnect, Event.finalizeDone, Event.disconnect]).finalizeStarts = 2 := by
  decide

/-- C1, amended: on every event interleaving that contains no
finalize-completion event (so while the first finalize body is still
running, the window in which the triggers can race), finalize begins at
most once, and exactly once if a transport disconnect occurs; triggers
arriving while `isClosing` is set are no-ops. -/
theorem c1_finalize_once_before_completion (evs : List Event)
    (hev : Event.finalizeDone ∉ evs) :
    (runEvents initSt evs).finalizeStarts ≤ 1 ∧
    (Event.disconnect ∈ evs → (runEvents initSt evs).finalizeStarts = 1) := by
  have hinv := runEvents_latchInv evs initSt hev (by unfold latchInv initSt; rfl)
  unfold latchInv at hinv
  constructor
  · rw [hinv]; split <;> omega
  · intro hd
    rw [hinv, runEvents_disconnect_closing evs initSt hev hd]
    rfl

/-- C1 witness: the single-disconnect trace satisfies the hypotheses of
`c1_finalize_once_before_completion` and finalize begins exactly once. -/
theorem c1_finalize_once_before_completion_witness :
    (runEvents initSt [Event.disconnect]).finalizeStarts ≤ 1 ∧
    (Event.disconnect ∈ [Event.disconnect] →
      (runEvents initSt [Event.disconnect]).finalizeStarts = 1) :=
  c1_finalize_once_before_completion [Event.disconnect] (by decide)

/-- C2, counterexample: the last-speaker-leaves trigger starts finalize
(`finalizeStarts = 1`, `isClosing = true`) but `remove()` never deletes the
session key from `CHANNELS`, so directory lookups still return this Session
and a subsequent join starts a new capture on it while it is Closing. -/
theorem c2_open_directory_counterexample :
    (runEvents initSt [Event.join mAlice true, Event.leave 1]).finalizeStarts = 1 ∧
    (runEvents initSt [Event.join mAlice true, Event.leave 1]).isClosing = true ∧
    (runEvents initSt [Event.join mAlice true, Event.leave 1]).inDirectory = true ∧
    mapHas (step (runEvents initSt [Event.join mAlice true, Event.leave 1])
        (Event.join mBob true)).states 2 = true := by
  decide

/-- C2, amended: the explicit-stop and transport-disconnect handlers remove
the session key from `CHANNELS` in the same synchronous turn in which they
start finalize, so after either of those triggers no lookup returns the
Session; the population-empty trigger (`leave`) never changes the directory
entry, so after a leave-triggered finalize the key remains registered. -/
theorem c2_deregistration_by_trigger_kind (st : SessionSt) (uid : Nat) :
    (step st Event.disconnect).inDirectory = false ∧
    (step st Event.stopCommand).inDirectory = false ∧
    (step st (Event.leave uid)).inDirectory = st.inDirectory := by
  refine ⟨?_, ?_, ?_⟩
  · simp only [step]
    rw [close_inDirectory]
  · simp only [step]
    split
    · rfl
    · next hc => exact Bool.not_eq_true _ ▸ Bool.of_not_eq_true hc
  · simp only [step]
    split
    · exact removeUser_inDirectory uid st
    · rfl

/-- C3 (confirmed): in the finalize body's I/O order, every artifact read of
the transcription loop is preceded by the awaited completion signal of its
recorder — the `toClose` list collects the finish promises of the recorders
drained at finalize entry and of those already finished, `Promise.all` is
awaited, the tolerance delay follows the wait (not replacing it), and only
then does the loop open any artifact. -/
theorem c3_flush_before_read (st : SessionSt) (r : UserState)
    (h : FinalizeAction.readArtifact r ∈ finalizeIOOrder st) :
    FinalizeAction.awaitFinish r ∈ finalizeAwaitPart st ∧
    finalizeIOOrder st =
      finalizeAwaitPart st ++ FinalizeAction.toleranceDelay :: finalizeReadPart st ∧
    (∀ a ∈ finalizeAwaitPart st, a ≠ FinalizeAction.readArtifact r) := by
  refine ⟨?_, rfl, ?_⟩
  · have hr : FinalizeAction.readArtifact r ∈ finalizeReadPart st := by
      unfold finalizeIOOrder at h
      rcases List.mem_append.1 h with h1 | h2
      · exfalso
        unfold finalizeAwaitPart at h1
        rcases List.mem_append.1 h1 with h3 | h3 <;>
        · rcases List.mem_map.1 h3 with ⟨p, _, hp⟩
          exact FinalizeAction.noConfusion hp
      · rcases List.mem_cons.1 h2 with h3 | h3
        · exact FinalizeAction.noConfusion h3
        · exact h3
    unfold finalizeReadPart at hr
    rcases List.mem_map.1 hr with ⟨p, hp, heq⟩
    have hpr : p.2 = r := by injection heq
    unfold finalizeAwaitPart
    exact List.mem_append.2 (Or.inr (List.mem_map.2 ⟨p, hp, by rw [hpr]⟩))
  · intro a ha hcontra
    unfold finalizeAwaitPart at ha
    rcases List.mem_append.1 ha with h3 | h3 <;>
    · rcases List.mem_map.1 h3 with ⟨p, _, hp⟩
      rw [hcontra] at hp
      exact FinalizeAction.noConfusion hp

/-- C3 witness: for the session `stC3` with the single finished recorder
`rC3`, the read of `rC3`'s artifact is preceded by the await of its
completion signal. -/
theorem c3_flush_before_read_witness :
    FinalizeAction.awaitFinish rC3 ∈ finalizeAwaitPart stC3 ∧
    finalizeIOOrder stC3 =
      finalizeAwaitPart stC3 ++ FinalizeAction.toleranceDelay :: finalizeReadPart stC3 ∧
    (∀ a ∈ finalizeAwaitPart stC3, a ≠ FinalizeAction.readArtifact rC3) :=
  c3_flush_before_read stC3 rC3 (by decide)

/-- C4, counterexample: after Alice joins, leaves and rejoins (while Bob
keeps the channel open), her identity is simultaneously a key of the active
map and of the finished map; and after her second leave, her second
recorder (created at clock 2) has overwritten her first finished recorder
(created at clock 0) — `finishedStates` is keyed by speaker id, not by
creation time, so the earlier finished recorder is discarded. -/
theorem c4_rejoin_counterexample :
    (mapHas (runEvents initSt c4trace).states 1 = true ∧
      mapHas (runEvents initSt c4trace).finishedStates 1 = true) ∧
    ((mapGet? (runEvents initSt (c4trace ++ [Event.leave 1])).finishedStates 1).map
        (fun u => u.createdAt) = some 2 ∧
      (runEvents initSt (c4trace ++ [Event.leave 1])).finishedStates.length = 1) := by
  decide

/-- C4, amended: what the code does guarantee is uniqueness within each map
separately — on every reachable state, no speaker identity occurs twice
among the active keys, and none occurs twice among the finished keys. -/
theorem c4_per_map_unique_speakers (evs : List Event) :
    keysNodup (runEvents initSt evs) :=
  keysNodup_runEvents evs initSt (by constructor <;> simp [initSt])

/-- C5 (confirmed): a per-speaker transcription failure is isolated — with
speaker A's call throwing and speaker B succeeding with non-empty text, the
loop yields exactly B's entry, the transcript has exactly B's section and
no section for A, and finalize completes and attempts delivery of the
transcript file. -/
theorem c5_per_speaker_isolation (tenv : TranscribeEnv) (senv : SummarizerEnv)
    (keep : Bool) (rA rB : UserState) (nA nB : Nat) (tB : String)
    (hname : rA.displayName ≠ rB.displayName)
    (hA : tenv.fileSize rA.filePath = some nA) (hnA : 1024 ≤ nA)
    (hAerr : tenv.transcribe rA.filePath = none)
    (hB : tenv.fileSize rB.filePath = some nB) (hnB : 1024 ≤ nB)
    (hBok : tenv.transcribe rB.filePath = some tB) (htB : tB ≠ "")
    (hcfg : senv.apiKey.isSome = true → senv.promptFileContent.isSome = true) :
    (transcriptionLoop tenv [rA, rB]).userTexts = [(rB.displayName, tB)] ∧
    sectionLines (transcriptionLoop tenv [rA, rB]).userTexts =
      ["## " ++ rB.displayName, "", tB, ""] ∧
    (∀ t, (rA.displayName, t) ∉ (transcriptionLoop tenv [rA, rB]).userTexts) ∧
    (∃ sFlag d, finalizePost senv keep (transcriptionLoop tenv [rA, rB]) =
      FinalizeOutcome.completed sFlag true d) := by
  have hloop : (transcriptionLoop tenv [rA, rB]).userTexts = [(rB.displayName, tB)] := by
    simp [transcriptionLoop, processOne, hA, hAerr, hB, hBok,
      Nat.not_lt.mpr hnA, Nat.not_lt.mpr hnB, htB]
  refine ⟨hloop, ?_, ?_, finalizePost_completed senv keep _ hcfg⟩
  · rw [hloop]; simp [sectionLines, sectionBlock, htB]
  · intro t ht
    rw [hloop] at ht
    simp at ht
    exact hname ht.1

/-- C5 witness: in the concrete environment `tenvW`, Alice's transcription
throws and Bob's succeeds; the loop output contains only Bob's entry. -/
theorem c5_per_speaker_isolation_witness :
    (transcriptionLoop tenvW [rAW, rBW]).userTexts = [(rBW.displayName, "hello")] :=
  (c5_per_speaker_isolation tenvW senvW false rAW rBW 4096 4096 "hello"
    (by decide) (by decide) (by decide) (by decide) (by decide) (by decide)
    (by decide) (by decide) (by decide)).1

/-- C6, counterexample: a summarizer failure that is not caught — with a
credential configured but the prompt file missing, `loadPromptFile` calls
`process.exit(1)` inside `summarizeTranscript`, so finalize aborts instead
of skipping the summary: no delivery, cleanup or webhook teardown runs. -/
theorem c6_prompt_exit_counterexample :
    summarizeTranscript { apiKey := some "k", promptFileContent := none, apiResponse := none }
      (buildTranscript [("Ann", "hi")]) = SummarizeResult.exited ∧
    finalizePost { apiKey := some "k", promptFileContent := none, apiResponse := none }
      false lr6 = FinalizeOutcome.processExited :=
  ⟨rfl, rfl⟩

/-- C6, amended: with no credential configured, `summarizeTranscript`
returns the placeholder string instead of raising, and finalize still
attempts delivery of both the placeholder summary and the transcript file;
a summarizer API throw (credential and prompt file present) is caught, the
summary send is skipped, and the transcript file delivery is still
attempted. Only the missing-prompt-file path with a credential set aborts
finalize (see the counterexample). -/
theorem c6_no_credential_placeholder (senv senv2 : SummarizerEnv)
    (keep keep2 : Bool) (lr : LoopResult)
    (hkey : senv.apiKey = none)
    (hk2 : senv2.apiKey.isSome = true)
    (hp2 : senv2.promptFileContent.isSome = true)
    (hr2 : senv2.apiResponse = none) :
    summarizeTranscript senv (buildTranscript lr.userTexts) =
      SummarizeResult.returned "OPENAI_API_KEY not set — summary skipped." ∧
    (∃ d, finalizePost senv keep lr = FinalizeOutcome.completed true true d) ∧
    (∃ d, finalizePost senv2 keep2 lr = FinalizeOutcome.completed false true d) := by
  refine ⟨by simp [summarizeTranscript, hkey], ?_, ?_⟩
  · refine ⟨if keep then [] else lr.filesToDelete, ?_⟩
    simp [finalizePost, summarizeTranscript, hkey,
      decide_eq_true (buildTranscript_ne_empty lr.userTexts)]
  · rcases Option.isSome_iff_exists.1 hk2 with ⟨k2, hkk⟩
    rcases Option.isSome_iff_exists.1 hp2 with ⟨p2, hpp⟩
    refine ⟨if keep2 then [] else lr.filesToDelete, ?_⟩
    simp [finalizePost, summarizeTranscript, hkk, hpp, hr2,
      decide_eq_true (buildTranscript_ne_empty lr.userTexts)]

/-- C6 witness: with no credential (`senvW`) the transcript file delivery
and the placeholder summary send are both attempted. -/
theorem c6_no_credential_placeholder_witness :
    ∃ d, finalizePost senvW false lr6 = FinalizeOutcome.completed true true d :=
  (c6_no_credential_placeholder senvW senv6 false false lr6
    rfl (by decide) (by decide) rfl).2.1

/-- C7 (confirmed): in the scenario with speaker X's 50KB artifact and
speaker Y's below-threshold artifact, the transcriber is called exactly once
(for X), the transcript has exactly X's section, and Y's artifact is queued
for deletion without a transcriber call. -/
theorem c7_below_threshold_excluded (tenv : TranscribeEnv) (X Y : UserState)
    (nY : Nat) (tX : String)
    (hX : tenv.fileSize X.filePath = some 51200)
    (hXok : tenv.transcribe X.filePath = some tX) (htX : tX ≠ "")
    (hY : tenv.fileSize Y.filePath = some nY) (hnY : nY < 1024) :
    (transcriptionLoop tenv [X, Y]).transcriberCalls = [X.filePath] ∧
    (transcriptionLoop tenv [X, Y]).userTexts = [(X.displayName, tX)] ∧
    sectionLines (transcriptionLoop tenv [X, Y]).userTexts =
      ["## " ++ X.displayName, "", tX, ""] ∧
    Y.filePath ∈ (transcriptionLoop tenv [X, Y]).filesToDelete ∧
    Y.filePath ∉ (transcriptionLoop tenv [X, Y]).transcriberCalls := by
  have hne : Y.filePath ≠ X.filePath := by
    intro h
    rw [h, hX] at hY
    have : (51200 : Nat) = nY := by injection hY
    omega
  have hcalls : (transcriptionLoop tenv [X, Y]).transcriberCalls = [X.filePath] := by
    simp [transcriptionLoop, processOne, hX, hXok, hY, hnY, htX]
  have huts : (transcriptionLoop tenv [X, Y]).userTexts = [(X.displayName, tX)] := by
    simp [transcriptionLoop, processOne, hX, hXok, hY, hnY, htX]
  refine ⟨hcalls, huts, ?_, ?_, ?_⟩
  · rw [huts]; simp [sectionLines, sectionBlock, htX]
  · simp [transcriptionLoop, processOne, hX, hXok, hY, hnY, htX]
  · rw [hcalls]; simp [hne]

/-- C7 witness: the concrete environment `tenv7` instantiates the scenario;
the transcriber is called exactly once, for X's artifact. -/
theorem c7_below_threshold_excluded_witness :
    (transcriptionLoop tenv7 [rX7, rY7]).transcriberCalls = [rX7.filePath] :=
  (c7_below_threshold_excluded tenv7 rX7 rY7 100 "talk"
    (by decide) (by decide) (by decide) (by decide) (by decide)).1

/-- C8 (confirmed): the transcript lists speaker sections in the order the
recorders entered the finished map, not join order — speaker 1 joins before
speaker 2, but speaker 2 leaves (finishes) first, and the resulting
transcript lists speaker 2's section before speaker 1's. -/
theorem c8_transcript_finished_order (na nb tA tB : String) (tenv : TranscribeEnv)
    (nA nB : Nat)
    (hfB : tenv.fileSize (mkRecPath 7 2 1) = some nB) (hnB : 1024 ≤ nB)
    (hfA : tenv.fileSize (mkRecPath 7 1 0) = some nA) (hnA : 1024 ≤ nA)
    (htB : tenv.transcribe (mkRecPath 7 2 1) = some tB) (htBne : tB ≠ "")
    (htA : tenv.transcribe (mkRecPath 7 1 0) = some tA) (htAne : tA ≠ "") :
    (runEvents initSt (c8trace na nb)).finishedStates.map Prod.fst = [2, 1] ∧
    (transcriptionLoop tenv
        ((runEvents initSt (c8trace na nb)).finishedStates.map Prod.snd)).userTexts =
      [(nb, tB), (na, tA)] ∧
    sectionLines (transcriptionLoop tenv
        ((runEvents initSt (c8trace na nb)).finishedStates.map Prod.snd)).userTexts =
      ["## " ++ nb, "", tB, "", "## " ++ na, "", tA, ""] := by
  have hst := runEvents_c8trace_finished na nb
  refine ⟨by rw [hst]; rfl, ?_, ?_⟩
  · rw [hst]
    simp [transcriptionLoop, processOne, hfB, hfA, htB, htA,
      Nat.not_lt.mpr hnB, Nat.not_lt.mpr hnA, htBne, htAne]
  · rw [hst]
    simp [transcriptionLoop, processOne, hfB, hfA, htB, htA,
      Nat.not_lt.mpr hnB, Nat.not_lt.mpr hnA, htBne, htAne,
      sectionLines, sectionBlock]

/-- C8 witness: with names Ann/Ben and environment `tenv8`, the transcript
entries appear in finished order, Ben before Ann. -/
theorem c8_transcript_finished_order_witness :
    (transcriptionLoop tenv8
        ((runEvents initSt (c8trace "Ann" "Ben")).finishedStates.map Prod.snd)).userTexts =
      [("Ben", "tb"), ("Ann", "ta")] :=
  (c8_transcript_finished_order "Ann" "Ben" "ta" "tb" tenv8 2048 2048
    (by decide) (by decide) (by decide) (by decide) (by decide) (by decide)
    (by decide) (by decide)).2.1

/-- C9, counterexample: a duplicate start for a speaker with an active
recorder does not fail with an `AlreadyCapturing` error — the code logs and
returns (`noOpLogged`), leaving the registry unchanged, whereas the
specification contract (`startCaptureSpec`) demands `errorAlreadyCapturing`
for the same input. -/
theorem c9_silent_skip_counterexample :
    (addUserRecording true mAlice st9).2 = CaptureOutcome.noOpLogged ∧
    (addUserRecording true mAlice st9).1 = st9 ∧
    (startCaptureSpec mAlice st9).2 = CaptureOutcome.errorAlreadyCapturing ∧
    CaptureOutcome.noOpLogged ≠ CaptureOutcome.errorAlreadyCapturing := by
  decide

/-- C9, amended: a second start for a speaker with an active recorder is a
synchronous silent no-op — the call logs, raises no error, creates no second
recorder, and leaves the session state (in particular the registry)
unchanged. -/
theorem c9_duplicate_start_no_op (subOk : Bool) (m : Member) (st : SessionSt)
    (h : mapHas st.states m.userId = true) :
    addUserRecording subOk m st = (st, CaptureOutcome.noOpLogged) := by
  unfold addUserRecording
  rw [if_pos h]

/-- C9 witness: starting Alice a second time on `st9` is a silent no-op. -/
theorem c9_duplicate_start_no_op_witness :
    addUserRecording true mAlice st9 = (st9, CaptureOutcome.noOpLogged) :=
  c9_duplicate_start_no_op true mAlice st9 (by decide)

/-- C10, counterexample: the transcript-emptiness guards are satisfiable
vacuously (the transcript is never empty), yet the transcript file is not
always delivered — with a credential configured and the prompt file
missing, the summarization step terminates the process before the delivery
step is reached. -/
theorem c10_exit_counterexample :
    buildTranscript [] ≠ "" ∧
    finalizePost { apiKey := some "k", promptFileContent := none, apiResponse := some "sum" }
      false { userTexts := [], filesToDelete := [], transcriberCalls := [] } =
      FinalizeOutcome.processExited :=
  ⟨by decide, rfl⟩

/-- C10, amended: on every finalize run the assembled transcript begins with
the fixed header line and is therefore never empty; whenever the
summarization step does not terminate the process (no credential, or prompt
file present), the transcript-file delivery guard holds and the send is
attempted; and the summarizer is invoked even when no speaker produced any
text — with no credential, an empty loop result still sends the placeholder
summary and the transcript file. -/
theorem c10_transcript_header_nonempty (senv : SummarizerEnv) (keep : Bool)
    (lr : LoopResult)
    (hcfg : senv.apiKey.isSome = true → senv.promptFileContent.isSome = true) :
    buildTranscript lr.userTexts =
      "# Transcript: Voice Channel" ++ "\n" ++ joinLines ("" :: sectionLines lr.userTexts) ∧
    buildTranscript lr.userTexts ≠ "" ∧
    (∃ sFlag d, finalizePost senv keep lr = FinalizeOutcome.completed sFlag true d) ∧
    finalizePost { apiKey := none, promptFileContent := none, apiResponse := none } false
      { userTexts := [], filesToDelete := [], transcriberCalls := [] } =
      FinalizeOutcome.completed true true [] :=
  ⟨buildTranscript_eq lr.userTexts, buildTranscript_ne_empty lr.userTexts,
    finalizePost_completed senv keep lr hcfg, by decide⟩

/-- C10 witness: with no credential configured (`senvW`), delivery of the
transcript file is attempted on the concrete loop result `lr6`. -/
theorem c10_transcript_header_nonempty_witness :
    ∃ sFlag d, finalizePost senvW false lr6 = FinalizeOutcome.completed sFlag true d :=
  (c10_transcript_header_nonempty senvW false lr6 (by decide)).2.2.1
